import Mathlib

/-!
Verification of the tray-icon toggle logic in
`src/desktop/src-tauri/src/main.rs` (the desktop shell bootstrapper).

The file embeds the only first-party logic of the program: the setup hook
(window lookup and tray-handler registration), the tray-icon event handler
(visibility toggle), and the final `run(...).expect(...)` step.  The host
runtime's window is treated as an external service (spec section 9): its
current visibility is a state bit, and each of the four capability calls
(`is_visible`, `hide`, `show`, `set_focus`) may fail, governed by an explicit
fault model.  Fallible calls return `Except Unit _` (errors are opaque to
this program).  Panics (`unwrap`, `expect`) are modelled as explicit outcome
constructors.
-/

namespace AgentCore

/-- Mouse buttons carried by tray click events (tauri::tray::MouseButton). -/
inductive MouseButton
  | Left
  | Right
  | Middle
deriving DecidableEq, Repr

/-- Button press state carried by tray click events
(tauri::tray::MouseButtonState). -/
inductive MouseButtonState
  | Up
  | Down
deriving DecidableEq, Repr

/-- Tray icon events (tauri::tray::TrayIconEvent).  The f64 screen
coordinates and rectangle of the real payload are abstracted to integer
positions; the handler under verification ignores every payload field. -/
inductive TrayIconEvent
  | Click (id : String) (position : Int × Int) (button : MouseButton)
      (buttonState : MouseButtonState)
  | DoubleClick (id : String) (position : Int × Int) (button : MouseButton)
  | Enter (id : String) (position : Int × Int)
  | Move (id : String) (position : Int × Int)
  | Leave (id : String) (position : Int × Int)
deriving DecidableEq, Repr

/-- Whether an event is of the Click variant (the only arm the handler's
match does not send to the wildcard no-op arm). -/
def TrayIconEvent.is_click : TrayIconEvent → Bool
  | .Click _ _ _ _ => true
  | _ => false

/-- The host-owned window state: the single visibility bit the program reads
and requests transitions of (spec: two-state visible/hidden toggle). -/
structure WindowState where
  visible : Bool
deriving DecidableEq, Repr

/-- Fault model for the external window service: which of the four
capability calls fail.  The program itself never inspects these; they decide
the `Err` results the host may hand back. -/
structure FaultModel where
  queryFails : Bool
  hideFails : Bool
  showFails : Bool
  focusFails : Bool
deriving DecidableEq, Repr

/-- Host semantics of `window.is_visible()`: reports the current visibility,
or an opaque error under a query fault. -/
def host_is_visible (fm : FaultModel) (s : WindowState) : Except Unit Bool :=
  if fm.queryFails then .error () else .ok s.visible

/-- Host semantics of `window.hide()`: on success the window becomes hidden;
on failure the state is unchanged and an error is returned. -/
def host_hide (fm : FaultModel) (s : WindowState) :
    WindowState × Except Unit Unit :=
  if fm.hideFails then (s, .error ()) else ({ visible := false }, .ok ())

/-- Host semantics of `window.show()`: on success the window becomes
visible; on failure the state is unchanged and an error is returned. -/
def host_show (fm : FaultModel) (s : WindowState) :
    WindowState × Except Unit Unit :=
  if fm.showFails then (s, .error ()) else ({ visible := true }, .ok ())

/-- Host semantics of `window.set_focus()`: never changes visibility, may
fail. -/
def host_set_focus (fm : FaultModel) (s : WindowState) :
    WindowState × Except Unit Unit :=
  (s, if fm.focusFails then .error () else .ok ())

instance {ε α : Type} [DecidableEq ε] [DecidableEq α] :
    DecidableEq (Except ε α) := fun a b =>
  match a, b with
  | .ok x, .ok y =>
      if h : x = y then isTrue (by rw [h])
      else isFalse (fun he => h (Except.ok.inj he))
  | .error x, .error y =>
      if h : x = y then isTrue (by rw [h])
      else isFalse (fun he => h (Except.error.inj he))
  | .ok _, .error _ => isFalse (fun he => Except.noConfusion he)
  | .error _, .ok _ => isFalse (fun he => Except.noConfusion he)

/-- Rust's `Result::unwrap_or`: the Ok value, or the default on Err. -/
def unwrap_or (r : Except Unit Bool) (default : Bool) : Bool :=
  match r with
  | .ok b => b
  | .error _ => default

/-- One window-capability call made by the tray handler, together with the
result the host returned for it. -/
inductive OpCall
  | queryVisible (result : Except Unit Bool)
  | hide (result : Except Unit Unit)
  | show (result : Except Unit Unit)
  | setFocus (result : Except Unit Unit)
deriving DecidableEq, Repr

/-- The kind of a window-capability call, with the host's answer erased. -/
inductive WindowOpKind
  | query
  | hideReq
  | showReq
  | focusReq
deriving DecidableEq, Repr

/-- Erase results, keeping only which call was made. -/
def OpCall.kind : OpCall → WindowOpKind
  | .queryVisible _ => .query
  | .hide _ => .hideReq
  | .show _ => .showReq
  | .setFocus _ => .focusReq

/-- The tray-icon event handler closure registered by `on_tray_icon_event`
in main.rs:

```
match event {
    TrayIconEvent::Click { .. } => {
        if window_clone.is_visible().unwrap_or(false) {
            let _ = window_clone.hide();
        } else {
            let _ = window_clone.show();
            let _ = window_clone.set_focus();
        }
    }
    _ => {}
}
```

Returns the window state after the handler runs and the ordered trace of
capability calls it issued (with the results the host returned, all of which
the handler discards). -/
def on_tray_icon_event (fm : FaultModel) (s : WindowState)
    (event : TrayIconEvent) : WindowState × List OpCall :=
  match event with
  | .Click _ _ _ _ =>
      let q := host_is_visible fm s
      if unwrap_or q false then
        let h := host_hide fm s
        (h.1, [.queryVisible q, .hide h.2])
      else
        let sh := host_show fm s
        let f := host_set_focus fm sh.1
        (f.1, [.queryVisible q, .show sh.2, .setFocus f.2])
  | _ => (s, [])

/-- Deliver a sequence of tray events to the handler, threading the window
state and concatenating the call traces. -/
def run_events (fm : FaultModel) (s : WindowState) :
    List TrayIconEvent → WindowState × List OpCall
  | [] => (s, [])
  | e :: rest =>
      let r := on_tray_icon_event fm s e
      let r2 := run_events fm r.1 rest
      (r2.1, r.2 ++ r2.2)

/-- The visibility trajectory: the initial visibility followed by the
visibility after each delivered event. -/
def visibility_trajectory (fm : FaultModel) (s : WindowState) :
    List TrayIconEvent → List Bool
  | [] => [s.visible]
  | e :: rest =>
      s.visible ::
        visibility_trajectory fm (on_tray_icon_event fm s e).1 rest

/-- A handle to a webview window, identified by its label. -/
structure WindowHandle where
  label : String
deriving DecidableEq, Repr

/-- The application handle passed to the setup hook: the windows the host
has created by setup time, keyed by label. -/
structure App where
  webviewWindows : List (String × WindowHandle)
deriving DecidableEq, Repr

/-- `app.get_webview_window(label)`: look a window up by label. -/
def App.get_webview_window (app : App) (label : String) :
    Option WindowHandle :=
  (app.webviewWindows.find? (fun p => p.1 == label)).map Prod.snd

/-- Outcome of running the setup hook: either the `unwrap` panicked, or the
hook returned its `Result` with a flag recording whether the tray handler
was registered on the way. -/
inductive SetupOutcome
  | panicked (msg : String)
  | returned (result : Except Unit Unit) (trayHandlerRegistered : Bool)
deriving DecidableEq, Repr

/-- The setup hook of main.rs (desktop configuration):
`let window = app.get_webview_window("main").unwrap();` then registration of
the tray handler, then `Ok(())`. -/
def setup (app : App) : SetupOutcome :=
  match app.get_webview_window "main" with
  | none => .panicked "called Option::unwrap() on a None value"
  | some _ => .returned (.ok ()) true

/-- Startup followed by event delivery: run the setup hook; if it returned
with the handler registered, deliver the tray events.  Produces the setup
outcome, the final window state and the full call trace. -/
def startup_then_events (app : App) (fm : FaultModel) (s : WindowState)
    (events : List TrayIconEvent) :
    SetupOutcome × WindowState × List OpCall :=
  match setup app with
  | .panicked m => (.panicked m, s, [])
  | .returned res registered =>
      if registered then
        let r := run_events fm s events
        (.returned res registered, r.1, r.2)
      else
        (.returned res registered, s, [])

/-- Outcome of the final `run(...).expect(...)` of main: either the process
blocks in the host's event loop until the host ends it, or `expect` panics
with its fatal message. -/
inductive RunOutcome
  | panicked (msg : String)
  | blockedUntilExit
deriving DecidableEq, Repr

/-- `Builder::run(context)` handed to `expect`:
`.run(tauri::generate_context!()).expect("error while running tauri
application")`.  The argument is the result the runtime's blocking run loop
produced. -/
def main_run (runResult : Except Unit Unit) : RunOutcome :=
  match runResult with
  | .error _ => .panicked "error while running tauri application"
  | .ok _ => .blockedUntilExit

/-- Claim C1: for every Click tray event, when the visibility query reports
the window visible, the handler issues exactly one hide request and no show
request and no focus request (the trace is the query followed by a single
hide). -/
theorem click_visible_issues_only_hide (fm : FaultModel) (s : WindowState)
    (id : String) (pos : Int × Int) (b : MouseButton)
    (bs : MouseButtonState)
    (h : host_is_visible fm s = Except.ok true) :
    ((on_tray_icon_event fm s (.Click id pos b bs)).2).map OpCall.kind =
      [WindowOpKind.query, WindowOpKind.hideReq] := by
  simp [on_tray_icon_event, h, unwrap_or, OpCall.kind]

/-- Claim C1 witness: concrete fault-free run on a visible window. -/
theorem click_visible_issues_only_hide_witness :
    host_is_visible ⟨false, false, false, false⟩ ⟨true⟩ = Except.ok true ∧
    ((on_tray_icon_event ⟨false, false, false, false⟩ ⟨true⟩
        (.Click "main" (0, 0) .Left .Down)).2).map OpCall.kind =
      [WindowOpKind.query, WindowOpKind.hideReq] :=
  ⟨rfl, click_visible_issues_only_hide _ _ _ _ _ _ rfl⟩

/-- Claim C2: for every Click tray event, when the visibility query reports
the window not visible, the handler issues a show request followed by a
focus request, in that order, and no hide request. -/
theorem click_hidden_issues_show_then_focus (fm : FaultModel)
    (s : WindowState) (id : String) (pos : Int × Int) (b : MouseButton)
    (bs : MouseButtonState)
    (h : host_is_visible fm s = Except.ok false) :
    ((on_tray_icon_event fm s (.Click id pos b bs)).2).map OpCall.kind =
      [WindowOpKind.query, WindowOpKind.showReq, WindowOpKind.focusReq] := by
  simp [on_tray_icon_event, h, unwrap_or, OpCall.kind]

/-- Claim C2 witness: concrete fault-free run on a hidden window. -/
theorem click_hidden_issues_show_then_focus_witness :
    host_is_visible ⟨false, false, false, false⟩ ⟨false⟩ =
      Except.ok false ∧
    ((on_tray_icon_event ⟨false, false, false, false⟩ ⟨false⟩
        (.Click "main" (0, 0) .Left .Down)).2).map OpCall.kind =
      [WindowOpKind.query, WindowOpKind.showReq, WindowOpKind.focusReq] :=
  ⟨rfl, click_hidden_issues_show_then_focus _ _ _ _ _ _ rfl⟩

/-- Claim C3: every tray event that is not of the Click variant is a no-op:
the handler issues no capability call at all (empty trace, so no visibility
query, hide, show or focus) and leaves the window state unchanged. -/
theorem non_click_event_is_noop (fm : FaultModel) (s : WindowState)
    (e : TrayIconEvent) (h : e.is_click = false) :
    on_tray_icon_event fm s e = (s, []) := by
  cases e <;> first
    | rfl
    | simp [TrayIconEvent.is_click] at h

/-- Claim C3 witness: a concrete Move event on a visible window. -/
theorem non_click_event_is_noop_witness :
    TrayIconEvent.is_click (.Move "main" (0, 0)) = false ∧
    on_tray_icon_event ⟨false, false, false, false⟩ ⟨true⟩
        (.Move "main" (0, 0)) =
      (⟨true⟩, []) :=
  ⟨rfl, non_click_event_is_noop _ _ _ rfl⟩

/-- Claim C4: if the lookup of the window labelled "main" returns no window,
the setup hook panics (the unwrap aborts) instead of returning, so startup
never continues with no tray handler registered. -/
theorem missing_main_window_panics (app : App)
    (h : app.get_webview_window "main" = none) :
    setup app = .panicked "called Option::unwrap() on a None value" := by
  simp [setup, h]

/-- Claim C4 witness: an app with no windows at all. -/
theorem missing_main_window_panics_witness :
    App.get_webview_window ⟨[]⟩ "main" = none ∧
    setup ⟨[]⟩ = .panicked "called Option::unwrap() on a None value" :=
  ⟨rfl, missing_main_window_panics _ rfl⟩

/-- Claim C5: whenever the main-window lookup succeeds, the setup hook
returns success with the tray handler registered, for every fault model and
every sequence of tray events — in particular no hide, show or focus failure
propagates out of the handler or out of setup. -/
theorem setup_success_despite_any_op_failure (app : App) (w : WindowHandle)
    (fm : FaultModel) (s : WindowState) (events : List TrayIconEvent)
    (h : app.get_webview_window "main" = some w) :
    (startup_then_events app fm s events).1 =
      .returned (.ok ()) true := by
  simp [startup_then_events, setup, h]

/-- Claim C5 witness: every capability call fails, yet setup reports
success with the handler registered. -/
theorem setup_success_despite_any_op_failure_witness :
    App.get_webview_window ⟨[("main", ⟨"main"⟩)]⟩ "main" =
      some ⟨"main"⟩ ∧
    (startup_then_events ⟨[("main", ⟨"main"⟩)]⟩ ⟨true, true, true, true⟩
        ⟨true⟩ [.Click "main" (0, 0) .Left .Down]).1 =
      .returned (.ok ()) true :=
  ⟨rfl, setup_success_despite_any_op_failure _ ⟨"main"⟩ _ _ _ rfl⟩

/-- Claim C6: with a fault-free host, delivering four clicks to the handler
starting from a visible window drives the visibility deterministically
through visible, hidden, visible, hidden (and back to visible after the
fourth click). -/
theorem four_clicks_toggle_from_visible :
    visibility_trajectory ⟨false, false, false, false⟩ ⟨true⟩
      [.Click "main" (0, 0) .Left .Down, .Click "main" (0, 0) .Left .Down,
       .Click "main" (0, 0) .Left .Down,
       .Click "main" (0, 0) .Left .Down] =
      [true, false, true, false, true] := rfl

/-- Claim C7: if the runtime's blocking run loop fails, the process
terminates with the fatal expect message "error while running tauri
application"; if it succeeds, the call blocks until the host ends the
process.  No other outcome exists. -/
theorem run_failure_is_fatal :
    main_run (.error ()) =
      .panicked "error while running tauri application" ∧
    main_run (.ok ()) = .blockedUntilExit :=
  ⟨rfl, rfl⟩

/-- Claim C8: for every Click event, if the visibility query itself fails,
the handler takes the not-visible branch: it issues a show request followed
by a focus request and never a hide request. -/
theorem query_failure_treated_as_hidden (fm : FaultModel) (s : WindowState)
    (id : String) (pos : Int × Int) (b : MouseButton)
    (bs : MouseButtonState) (h : fm.queryFails = true) :
    ((on_tray_icon_event fm s (.Click id pos b bs)).2).map OpCall.kind =
      [WindowOpKind.query, WindowOpKind.showReq, WindowOpKind.focusReq] := by
  simp [on_tray_icon_event, host_is_visible, h, unwrap_or, OpCall.kind]

/-- Claim C8 witness: query fault on a window that is actually visible —
still show then focus, no hide. -/
theorem query_failure_treated_as_hidden_witness :
    FaultModel.queryFails ⟨true, false, false, false⟩ = true ∧
    ((on_tray_icon_event ⟨true, false, false, false⟩ ⟨true⟩
        (.Click "main" (0, 0) .Left .Down)).2).map OpCall.kind =
      [WindowOpKind.query, WindowOpKind.showReq, WindowOpKind.focusReq] :=
  ⟨rfl, query_failure_treated_as_hidden _ _ _ _ _ _ rfl⟩

/-- Claim C9: the handler treats every Click event identically whatever its
payload (tray id, position, mouse button, button state): the resulting state
and call trace depend only on the fault model and current window state. -/
theorem click_payload_irrelevant (fm : FaultModel) (s : WindowState)
    (id1 id2 : String) (p1 p2 : Int × Int) (b1 b2 : MouseButton)
    (bs1 bs2 : MouseButtonState) :
    on_tray_icon_event fm s (.Click id1 p1 b1 bs1) =
      on_tray_icon_event fm s (.Click id2 p2 b2 bs2) := rfl

/-- Claim C10: in the not-visible branch, when the show request fails the
focus request is still issued right after it: the trace is the query, the
failed show, then the focus attempt. -/
theorem focus_follows_failed_show (fm : FaultModel) (s : WindowState)
    (id : String) (pos : Int × Int) (b : MouseButton)
    (bs : MouseButtonState) (hshow : fm.showFails = true)
    (hq : unwrap_or (host_is_visible fm s) false = false) :
    (on_tray_icon_event fm s (.Click id pos b bs)).2 =
      [.queryVisible (host_is_visible fm s), .show (.error ()),
       .setFocus (host_set_focus fm s).2] := by
  simp [on_tray_icon_event, hq, host_show, hshow]

/-- Claim C10 witness: hidden window, show fails, focus succeeds — the
focus call still appears after the failed show. -/
theorem focus_follows_failed_show_witness :
    FaultModel.showFails ⟨false, false, true, false⟩ = true ∧
    unwrap_or (host_is_visible ⟨false, false, true, false⟩ ⟨false⟩) false =
      false ∧
    (on_tray_icon_event ⟨false, false, true, false⟩ ⟨false⟩
        (.Click "main" (0, 0) .Left .Down)).2 =
      [.queryVisible (host_is_visible ⟨false, false, true, false⟩ ⟨false⟩),
       .show (.error ()),
       .setFocus (host_set_focus ⟨false, false, true, false⟩ ⟨false⟩).2] :=
  ⟨rfl, rfl, focus_follows_failed_show _ _ _ _ _ _ rfl rfl⟩

end AgentCore
